import Mathlib

/-!
# CPUID feature detection (`core-cpu.c`)

A shallow embedding of `core-cpu.c`: the raw `cpuid` primitive, the vendor
check and the eight feature predicates, for both build variants selected by
`STRESS_ARCH_X86`.

The hardware is an oracle mapping a (leaf, sub-leaf) pair to four register
values.  The C functions take no arguments and return a `bool`; the embedding
threads a `World` through them that carries the oracle and the log of the
calls made to `stress_x86_cpuid`, so that the queries issued by a call can be
stated.
-/

namespace StressCpu

/-! ## Data model -/

/-- Truncation to `uint32_t`. -/
def u32 (x : Nat) : Nat := x % 2 ^ 32

/-- The four registers `eax`, `ebx`, `ecx`, `edx`. -/
structure Regs where
  eax : Nat
  ebx : Nat
  ecx : Nat
  edx : Nat
deriving DecidableEq, Repr

/-- The `cpuid` instruction seen as a function of the incoming `eax` (leaf)
and `ecx` (sub-leaf). -/
abbrev Oracle := Nat → Nat → Regs

/-- The two build variants: `STRESS_ARCH_X86` defined or not. -/
inductive Arch where
  | x86
  | other
deriving DecidableEq, Repr

/-- The processor together with the log of the calls of `stress_x86_cpuid`,
each recorded with its incoming (`eax`, `ecx`). -/
structure World where
  hw : Oracle
  calls : List (Nat × Nat)

/-! ## Feature masks (`#define CPUID_*`) -/

def CPUID_tsc : Nat := u32 (1 <<< 4)
def CPUID_msr : Nat := u32 (1 <<< 5)
def CPUID_syscall : Nat := u32 (1 <<< 11)
def CPUID_rdseed : Nat := u32 (1 <<< 18)
def CPUID_rdrand : Nat := u32 (1 <<< 30)
def CPUID_pcommit : Nat := u32 (1 <<< 22)
def CPUID_clflushopt : Nat := u32 (1 <<< 23)
def CPUID_clwb : Nat := u32 (1 <<< 24)
def CPUID_cldemote : Nat := u32 (1 <<< 25)

/-! ## C library and memory representation -/

/-- The four bytes of a `uint32_t` object in memory on x86 (little endian):
low-order byte first. -/
def le_bytes (x : Nat) : List Nat :=
  [x % 256, x / 256 % 256, x / 65536 % 256, x / 16777216 % 256]

/-- The bytes of a C string literal (ASCII). -/
def c_str (s : String) : List Nat := s.toList.map Char.toNat

/-- Model of `memcmp(a, b, n)`: zero when the first `n` bytes agree, else the
difference of the first pair of bytes that differ. -/
def memcmp : List Nat → List Nat → Nat → Int
  | _, _, 0 => 0
  | a :: as, b :: bs, n + 1 =>
    if a = b then memcmp as bs n else (a : Int) - (b : Int)
  | _, _, _ + 1 => 0

/-! ## The program -/

/-- Model of `stress_x86_cpuid`: on x86 the `cpuid` instruction reads `*eax` and
`*ecx` and writes all four registers; elsewhere all four are zeroed. -/
def stress_x86_cpuid (arch : Arch) (r : Regs) (w : World) : Regs × World :=
  let w1 : World := { w with calls := w.calls ++ [(r.eax, r.ecx)] }
  match arch with
  | .x86 =>
    let o := w.hw r.eax r.ecx
    (⟨u32 o.eax, u32 o.ebx, u32 o.ecx, u32 o.edx⟩, w1)
  | .other => (⟨0, 0, 0, 0⟩, w1)

/-- Model of `stress_cpu_is_x86`. -/
def stress_cpu_is_x86 (arch : Arch) (w : World) : Bool × World :=
  match arch with
  | .x86 =>
    let (r, w1) := stress_x86_cpuid arch ⟨0, 0, 0, 0⟩ w
    if memcmp (le_bytes r.ebx) (c_str "Genu") 4 == 0 &&
       memcmp (le_bytes r.edx) (c_str "ineI") 4 == 0 &&
       memcmp (le_bytes r.ecx) (c_str "ntel") 4 == 0 then
      (true, w1)
    else
      (false, w1)
  | .other => (false, w)

/-- Model of the static `stress_cpu_x86_extended_features` (x86 build only):
`eax = 7`, the caller's `ebx`, `ecx`, `edx` are passed through and
overwritten. -/
def stress_cpu_x86_extended_features (ebx ecx edx : Nat) (w : World) :
    (Nat × Nat × Nat) × World :=
  let eax := 7
  let (r, w1) := stress_x86_cpuid .x86 ⟨eax, ebx, ecx, edx⟩ w
  ((r.ebx, r.ecx, r.edx), w1)

/-- Model of `stress_cpu_x86_has_clflushopt`. -/
def stress_cpu_x86_has_clflushopt (arch : Arch) (w : World) : Bool × World :=
  match arch with
  | .x86 =>
    let (ok, w1) := stress_cpu_is_x86 arch w
    if !ok then (false, w1)
    else
      let ((ebx, _, _), w2) := stress_cpu_x86_extended_features 0 0 0 w1
      ((ebx &&& CPUID_clflushopt) != 0, w2)
  | .other => (false, w)

/-- Model of `stress_cpu_x86_has_clwb`. -/
def stress_cpu_x86_has_clwb (arch : Arch) (w : World) : Bool × World :=
  match arch with
  | .x86 =>
    let (ok, w1) := stress_cpu_is_x86 arch w
    if !ok then (false, w1)
    else
      let ((ebx, _, _), w2) := stress_cpu_x86_extended_features 0 0 0 w1
      ((ebx &&& CPUID_clwb) != 0, w2)
  | .other => (false, w)

/-- Model of `stress_cpu_x86_has_cldemote`. -/
def stress_cpu_x86_has_cldemote (arch : Arch) (w : World) : Bool × World :=
  match arch with
  | .x86 =>
    let (ok, w1) := stress_cpu_is_x86 arch w
    if !ok then (false, w1)
    else
      let ((_, ecx, _), w2) := stress_cpu_x86_extended_features 0 0 0 w1
      ((ecx &&& CPUID_cldemote) != 0, w2)
  | .other => (false, w)

/-- Model of `stress_cpu_x86_has_rdseed`. -/
def stress_cpu_x86_has_rdseed (arch : Arch) (w : World) : Bool × World :=
  match arch with
  | .x86 =>
    let (ok, w1) := stress_cpu_is_x86 arch w
    if !ok then (false, w1)
    else
      let ((ebx, _, _), w2) := stress_cpu_x86_extended_features 0 0 0 w1
      ((ebx &&& CPUID_rdseed) != 0, w2)
  | .other => (false, w)

/-- Model of `stress_cpu_x86_has_syscall`. -/
def stress_cpu_x86_has_syscall (arch : Arch) (w : World) : Bool × World :=
  match arch with
  | .x86 =>
    let (ok, w1) := stress_cpu_is_x86 arch w
    if !ok then (false, w1)
    else
      let (r, w2) := stress_x86_cpuid arch ⟨0x80000001, 0, 0, 0⟩ w1
      ((r.edx &&& CPUID_syscall) != 0, w2)
  | .other => (false, w)

/-- Model of `stress_cpu_x86_has_rdrand`. -/
def stress_cpu_x86_has_rdrand (arch : Arch) (w : World) : Bool × World :=
  match arch with
  | .x86 =>
    let (ok, w1) := stress_cpu_is_x86 arch w
    if !ok then (false, w1)
    else
      let (r, w2) := stress_x86_cpuid arch ⟨0x1, 0, 0, 0⟩ w1
      ((r.ecx &&& CPUID_rdrand) != 0, w2)
  | .other => (false, w)

/-- Model of `stress_cpu_x86_has_tsc`. -/
def stress_cpu_x86_has_tsc (arch : Arch) (w : World) : Bool × World :=
  match arch with
  | .x86 =>
    let (ok, w1) := stress_cpu_is_x86 arch w
    if !ok then (false, w1)
    else
      let (r, w2) := stress_x86_cpuid arch ⟨0x1, 0, 0, 0⟩ w1
      ((r.edx &&& CPUID_tsc) != 0, w2)
  | .other => (false, w)

/-- Model of `stress_cpu_x86_has_msr`. -/
def stress_cpu_x86_has_msr (arch : Arch) (w : World) : Bool × World :=
  match arch with
  | .x86 =>
    let (ok, w1) := stress_cpu_is_x86 arch w
    if !ok then (false, w1)
    else
      let (r, w2) := stress_x86_cpuid arch ⟨0x1, 0, 0, 0⟩ w1
      ((r.edx &&& CPUID_msr) != 0, w2)
  | .other => (false, w)

/-! ## Vocabulary of the specification -/

/-- The registers the processor leaves after `cpuid` with the given leaf and
sub-leaf. -/
def query (hw : Oracle) (leaf sub : Nat) : Regs :=
  let o := hw leaf sub
  ⟨u32 o.eax, u32 o.ebx, u32 o.ecx, u32 o.edx⟩

/-- The 12 vendor bytes: `ebx`, `edx`, `ecx`, each low-order byte first. -/
def vendor_bytes (r : Regs) : List Nat :=
  le_bytes r.ebx ++ le_bytes r.edx ++ le_bytes r.ecx

/-- The ASCII bytes of "GenuineIntel". -/
def GenuineIntel : List Nat := c_str "GenuineIntel"

/-- The eight detectable features. -/
inductive Feature where
  | tsc | msr | rdrand | syscall | rdseed | clflushopt | clwb | cldemote
deriving DecidableEq, Repr

/-- Names of the four registers. -/
inductive Reg where
  | a | b | c | d
deriving DecidableEq, Repr

/-- Selection of a register by name. -/
def Regs.get (r : Regs) : Reg → Nat
  | .a => r.eax
  | .b => r.ebx
  | .c => r.ecx
  | .d => r.edx

/-- The leaf column of the feature table of the specification. -/
def Feature.leaf : Feature → Nat
  | .tsc | .msr | .rdrand => 1
  | .syscall => 0x80000001
  | .rdseed | .clflushopt | .clwb | .cldemote => 7

/-- The register column of the feature table of the specification. -/
def Feature.reg : Feature → Reg
  | .tsc | .msr | .syscall => .d
  | .rdrand | .cldemote => .c
  | .rdseed | .clflushopt | .clwb => .b

/-- The bit column of the feature table of the specification. -/
def Feature.bit : Feature → Nat
  | .tsc => 4
  | .msr => 5
  | .rdrand => 30
  | .syscall => 11
  | .rdseed => 18
  | .clflushopt => 23
  | .clwb => 24
  | .cldemote => 25

/-- The C function that implements each feature predicate. -/
def Feature.pred : Feature → Arch → World → Bool × World
  | .tsc => stress_cpu_x86_has_tsc
  | .msr => stress_cpu_x86_has_msr
  | .rdrand => stress_cpu_x86_has_rdrand
  | .syscall => stress_cpu_x86_has_syscall
  | .rdseed => stress_cpu_x86_has_rdseed
  | .clflushopt => stress_cpu_x86_has_clflushopt
  | .clwb => stress_cpu_x86_has_clwb
  | .cldemote => stress_cpu_x86_has_cldemote

/-- All eight features. -/
def Feature.all : List Feature :=
  [.tsc, .msr, .rdrand, .syscall, .rdseed, .clflushopt, .clwb, .cldemote]

/-- What a feature predicate of the x86 build computes, in the words of the
feature table: the vendor check on leaf 0, then one bit of one register of the
feature leaf. -/
def feature_table_pred (f : Feature) (w : World) : Bool × World :=
  if vendor_bytes (query w.hw 0 0) = GenuineIntel then
    (((query w.hw f.leaf 0).get f.reg).testBit f.bit,
      ⟨w.hw, w.calls ++ [(0, 0), (f.leaf, 0)]⟩)
  else
    (false, ⟨w.hw, w.calls ++ [(0, 0)]⟩)

/-- The queries a call has issued: what it appended to the log. -/
def issued (before after : World) : List (Nat × Nat) :=
  after.calls.drop before.calls.length

/-! ## Example processors and answers -/

/-- A processor that answers leaf 0 with "GenuineIntel" (highest leaf 0x16),
leaf 1 with only TSC, leaf 7 with only CLWB and other leaves with zero. -/
def intel_hw : Oracle := fun leaf _ =>
  if leaf = 0 then ⟨0x16, 0x756E6547, 0x6C65746E, 0x49656E69⟩
  else if leaf = 1 then ⟨0, 0, 0, 1 <<< 4⟩
  else if leaf = 7 then ⟨0, 1 <<< 24, 0, 0⟩
  else ⟨0, 0, 0, 0⟩

/-- A processor that answers leaf 0 with "GenuineIntex" (last byte changed). -/
def intex_hw : Oracle := fun leaf _ =>
  if leaf = 0 then ⟨0x16, 0x756E6547, 0x7865746E, 0x49656E69⟩
  else ⟨0xFFFFFFFF, 0xFFFFFFFF, 0xFFFFFFFF, 0xFFFFFFFF⟩

/-- A processor that answers leaf 0 with "AuthenticAMD" and every other leaf
with all bits set. -/
def amd_hw : Oracle := fun leaf _ =>
  if leaf = 0 then ⟨0x10, 0x68747541, 0x444D4163, 0x69746E65⟩
  else ⟨0xFFFFFFFF, 0xFFFFFFFF, 0xFFFFFFFF, 0xFFFFFFFF⟩

/-- A processor that answers every query with zero. -/
def zero_hw : Oracle := fun _ _ => ⟨0, 0, 0, 0⟩

/-- Overwriting one register. -/
def Regs.put (r : Regs) (which : Reg) (v : Nat) : Regs :=
  match which with
  | .a => { r with eax := v }
  | .b => { r with ebx := v }
  | .c => { r with ecx := v }
  | .d => { r with edx := v }

/-- The answer in which only the bit of the feature is set, in the register of
the feature; every other bit of the four registers is clear. -/
def only_bit (f : Feature) : Regs :=
  (⟨0, 0, 0, 0⟩ : Regs).put f.reg (1 <<< f.bit)

/-- The answer in which the bit of the feature is clear and every other bit of
the four registers is set. -/
def all_but_bit (f : Feature) : Regs :=
  (⟨0xFFFFFFFF, 0xFFFFFFFF, 0xFFFFFFFF, 0xFFFFFFFF⟩ : Regs).put f.reg
    (0xFFFFFFFF ^^^ (1 <<< f.bit))

/-- A "GenuineIntel" processor whose leaves 1, 7 and 0x80000001 have every bit
set except RDSEED (leaf 7, EBX, bit 18). -/
def no_rdseed_hw : Oracle := fun leaf _ =>
  if leaf = 0 then ⟨0x16, 0x756E6547, 0x6C65746E, 0x49656E69⟩
  else if leaf = 7 then ⟨0xFFFFFFFF, 0xFFFBFFFF, 0xFFFFFFFF, 0xFFFFFFFF⟩
  else ⟨0xFFFFFFFF, 0xFFFFFFFF, 0xFFFFFFFF, 0xFFFFFFFF⟩

/-- A "GenuineIntel" processor whose leaf 7 has only CLFLUSHOPT (EBX bit 23). -/
def clflushopt_hw : Oracle := fun leaf _ =>
  if leaf = 0 then ⟨0x16, 0x756E6547, 0x6C65746E, 0x49656E69⟩
  else if leaf = 7 then ⟨0, 1 <<< 23, 0, 0⟩
  else ⟨0, 0, 0, 0⟩

/-- A "GenuineIntel" processor that reports 1 as its highest basic leaf (leaf-0
EAX) and still answers leaf 7 with RDSEED (EBX bit 18) set. -/
def max_leaf1_hw : Oracle := fun leaf _ =>
  if leaf = 0 then ⟨1, 0x756E6547, 0x6C65746E, 0x49656E69⟩
  else if leaf = 7 then ⟨0, 1 <<< 18, 0, 0⟩
  else ⟨0, 0, 0, 0⟩

/-- The same processor as `max_leaf1_hw` but for the highest basic leaf, which
is 7. -/
def max_leaf7_hw : Oracle := fun leaf _ =>
  if leaf = 0 then ⟨7, 0x756E6547, 0x6C65746E, 0x49656E69⟩
  else if leaf = 7 then ⟨0, 1 <<< 18, 0, 0⟩
  else ⟨0, 0, 0, 0⟩

/-! ## Auxiliary lemmas -/

theorem memcmp_eq_zero_iff (n : Nat) : ∀ (a b : List Nat), n ≤ a.length → n ≤ b.length →
    (memcmp a b n = 0 ↔ a.take n = b.take n) := by
  induction n with
  | zero => intro a b _ _; simp [memcmp]
  | succ k ih =>
    intro a b ha hb
    cases a with
    | nil => simp at ha
    | cons x xs =>
      cases b with
      | nil => simp at hb
      | cons y ys =>
        simp only [List.length_cons, Nat.add_le_add_iff_right] at ha hb
        by_cases hxy : x = y
        · simp [memcmp, hxy, ih xs ys ha hb]
        · have hne : (x : Int) - (y : Int) ≠ 0 := by omega
          simp [memcmp, hxy, hne]

theorem le_bytes_length (x : Nat) : (le_bytes x).length = 4 := rfl

theorem memcmp_le_bytes (x : Nat) (s : List Nat) (hs : s.length = 4) :
    (memcmp (le_bytes x) s 4 == 0) = decide (le_bytes x = s) := by
  have h := memcmp_eq_zero_iff 4 (le_bytes x) s (by simp [le_bytes_length]) (by omega)
  have h1 : (le_bytes x).take 4 = le_bytes x := List.take_of_length_le (by simp [le_bytes_length])
  have h2 : s.take 4 = s := List.take_of_length_le (by omega)
  rw [h1, h2] at h
  by_cases hx : le_bytes x = s
  · have h0 := h.mpr hx
    rw [h0]
    simp [hx]
  · have : memcmp (le_bytes x) s 4 ≠ 0 := fun hc => hx (h.mp hc)
    simp [hx, this]

theorem c_str_Genu : c_str "Genu" = [0x47, 0x65, 0x6E, 0x75] := by decide
theorem c_str_ineI : c_str "ineI" = [0x69, 0x6E, 0x65, 0x49] := by decide
theorem c_str_ntel : c_str "ntel" = [0x6E, 0x74, 0x65, 0x6C] := by decide
theorem GenuineIntel_eq :
    GenuineIntel = [0x47, 0x65, 0x6E, 0x75, 0x69, 0x6E, 0x65, 0x49, 0x6E, 0x74, 0x65, 0x6C] := by
  decide

theorem u32_lt (x : Nat) : u32 x < 4294967296 := by
  unfold u32; omega

/-- Four little-endian bytes determine a 32-bit value. -/
theorem le_bytes_eq_iff (x b0 b1 b2 b3 : Nat) (hx : x < 4294967296)
    (h0 : b0 < 256) (h1 : b1 < 256) (h2 : b2 < 256) (h3 : b3 < 256) :
    le_bytes x = [b0, b1, b2, b3] ↔ x = b0 + 256 * b1 + 65536 * b2 + 16777216 * b3 := by
  simp only [le_bytes, List.cons.injEq, and_true]
  omega

theorem GenuineIntel_split :
    GenuineIntel = c_str "Genu" ++ c_str "ineI" ++ c_str "ntel" := by
  decide

theorem append3_inj (a b c p q r : List Nat) (h1 : a.length = p.length)
    (h2 : b.length = q.length) :
    a ++ b ++ c = p ++ q ++ r ↔ a = p ∧ b = q ∧ c = r := by
  constructor
  · intro h
    rw [List.append_assoc, List.append_assoc] at h
    obtain ⟨ha, h'⟩ := List.append_inj h h1
    obtain ⟨hb, hc⟩ := List.append_inj h' h2
    exact ⟨ha, hb, hc⟩
  · rintro ⟨rfl, rfl, rfl⟩
    rfl

/-- The x86 build of the raw query returns the answer of the processor and
logs the call. -/
theorem cpuid_x86 (r : Regs) (w : World) :
    stress_x86_cpuid .x86 r w =
      (query w.hw r.eax r.ecx, ⟨w.hw, w.calls ++ [(r.eax, r.ecx)]⟩) := rfl

/-- The vendor check of the x86 build, as a function of the leaf-0 answer. -/
theorem is_x86_x86 (w : World) :
    stress_cpu_is_x86 .x86 w =
      (decide (vendor_bytes (query w.hw 0 0) = GenuineIntel), ⟨w.hw, w.calls ++ [(0, 0)]⟩) := by
  simp only [stress_cpu_is_x86, cpuid_x86, vendor_bytes]
  rw [memcmp_le_bytes _ _ (by decide), memcmp_le_bytes _ _ (by decide),
    memcmp_le_bytes _ _ (by decide), GenuineIntel_split]
  have key := append3_inj (le_bytes (query w.hw 0 0).ebx) (le_bytes (query w.hw 0 0).edx)
    (le_bytes (query w.hw 0 0).ecx) (c_str "Genu") (c_str "ineI") (c_str "ntel") rfl rfl
  by_cases hX : le_bytes (query w.hw 0 0).ebx ++ le_bytes (query w.hw 0 0).edx ++
      le_bytes (query w.hw 0 0).ecx = c_str "Genu" ++ c_str "ineI" ++ c_str "ntel"
  · obtain ⟨h1, h2, h3⟩ := key.mp hX
    rw [decide_eq_true hX, decide_eq_true h1, decide_eq_true h2, decide_eq_true h3]
    rfl
  · have hn : ¬(le_bytes (query w.hw 0 0).ebx = c_str "Genu" ∧
        le_bytes (query w.hw 0 0).edx = c_str "ineI" ∧
        le_bytes (query w.hw 0 0).ecx = c_str "ntel") := fun h => hX (key.mpr h)
    have hb : (decide (le_bytes (query w.hw 0 0).ebx = c_str "Genu") &&
        decide (le_bytes (query w.hw 0 0).edx = c_str "ineI") &&
        decide (le_bytes (query w.hw 0 0).ecx = c_str "ntel")) = false := by
      simpa using hn
    rw [decide_eq_false hX, hb]
    rfl

/-- Masking with a single bit tests that bit. -/
theorem and_bit (x k : Nat) (hk : k < 32) :
    ((x &&& u32 (1 <<< k)) != 0) = x.testBit k := by
  have h1 : u32 (1 <<< k) = 2 ^ k := by
    unfold u32
    rw [Nat.one_shiftLeft]
    exact Nat.mod_eq_of_lt (Nat.pow_lt_pow_right (by decide) hk)
  rw [h1]
  by_cases hb : x.testBit k = true
  · have : x &&& 2 ^ k ≠ 0 := by
      intro h0
      have := congrArg (fun n => n.testBit k) h0
      simp [Nat.testBit_and, hb, Nat.testBit_two_pow_self] at this
    simp [hb, this]
  · have : x &&& 2 ^ k = 0 := by
      apply Nat.eq_of_testBit_eq
      intro i
      by_cases hik : k = i
      · subst hik
        simp [Nat.testBit_and, hb]
      · simp [Nat.testBit_and, Nat.testBit_two_pow_of_ne hik]
    simp [hb, this]

theorem and_CPUID_tsc (x : Nat) : ((x &&& CPUID_tsc) != 0) = x.testBit 4 :=
  and_bit x 4 (by decide)
theorem and_CPUID_msr (x : Nat) : ((x &&& CPUID_msr) != 0) = x.testBit 5 :=
  and_bit x 5 (by decide)
theorem and_CPUID_syscall (x : Nat) : ((x &&& CPUID_syscall) != 0) = x.testBit 11 :=
  and_bit x 11 (by decide)
theorem and_CPUID_rdseed (x : Nat) : ((x &&& CPUID_rdseed) != 0) = x.testBit 18 :=
  and_bit x 18 (by decide)
theorem and_CPUID_rdrand (x : Nat) : ((x &&& CPUID_rdrand) != 0) = x.testBit 30 :=
  and_bit x 30 (by decide)
theorem and_CPUID_clflushopt (x : Nat) : ((x &&& CPUID_clflushopt) != 0) = x.testBit 23 :=
  and_bit x 23 (by decide)
theorem and_CPUID_clwb (x : Nat) : ((x &&& CPUID_clwb) != 0) = x.testBit 24 :=
  and_bit x 24 (by decide)
theorem and_CPUID_cldemote (x : Nat) : ((x &&& CPUID_cldemote) != 0) = x.testBit 25 :=
  and_bit x 25 (by decide)

/-- Each feature predicate of the x86 build follows the feature table. -/
theorem pred_x86 (f : Feature) (w : World) :
    f.pred .x86 w = feature_table_pred f w := by
  cases f <;>
  · simp only [Feature.pred, stress_cpu_x86_has_tsc, stress_cpu_x86_has_msr,
      stress_cpu_x86_has_rdrand, stress_cpu_x86_has_syscall, stress_cpu_x86_has_rdseed,
      stress_cpu_x86_has_clflushopt, stress_cpu_x86_has_clwb, stress_cpu_x86_has_cldemote,
      stress_cpu_x86_extended_features, is_x86_x86, feature_table_pred, cpuid_x86,
      and_CPUID_tsc, and_CPUID_msr, and_CPUID_rdrand, and_CPUID_syscall, and_CPUID_rdseed,
      and_CPUID_clflushopt, and_CPUID_clwb, and_CPUID_cldemote,
      Feature.leaf, Feature.reg, Feature.bit, Regs.get]
    by_cases h : vendor_bytes (query w.hw 0 0) = GenuineIntel
    · simp [h]
    · simp [h]

/-- On the other build every predicate returns false at once. -/
theorem pred_other (f : Feature) (w : World) : f.pred .other w = (false, w) := by
  cases f <;> rfl

/-- A vendor string is "GenuineIntel" exactly when the three registers hold
the three documented words. -/
theorem vendor_bytes_iff (hw : Oracle) :
    vendor_bytes (query hw 0 0) = GenuineIntel ↔
      (query hw 0 0).ebx = 0x756E6547 ∧ (query hw 0 0).edx = 0x49656E69 ∧
        (query hw 0 0).ecx = 0x6C65746E := by
  have hb : (query hw 0 0).ebx < 4294967296 := u32_lt _
  have hd : (query hw 0 0).edx < 4294967296 := u32_lt _
  have hc : (query hw 0 0).ecx < 4294967296 := u32_lt _
  rw [GenuineIntel_split, vendor_bytes,
    append3_inj (le_bytes (query hw 0 0).ebx) (le_bytes (query hw 0 0).edx)
      (le_bytes (query hw 0 0).ecx) (c_str "Genu") (c_str "ineI") (c_str "ntel") rfl rfl,
    c_str_Genu, c_str_ineI,
    c_str_ntel, le_bytes_eq_iff _ _ _ _ _ hb (by decide) (by decide) (by decide) (by decide),
    le_bytes_eq_iff _ _ _ _ _ hd (by decide) (by decide) (by decide) (by decide),
    le_bytes_eq_iff _ _ _ _ _ hc (by decide) (by decide) (by decide) (by decide)]

/-- Overwriting one element of a list by a different value changes the list. -/
theorem set_ne_self (l : List Nat) (i b : Nat) (hi : i < l.length) (hb : b ≠ l.getD i 0) :
    l.set i b ≠ l := by
  intro h
  have h2 := congrArg (fun m => m.getD i 0) h
  simp only [List.getD_eq_getElem?_getD, List.getElem?_set_self hi, Option.getD_some] at h2
  exact hb (by rw [List.getD_eq_getElem?_getD]; exact h2)

theorem only_bit_test (f : Feature) :
    ((only_bit f).get f.reg).testBit f.bit = true := by
  cases f <;> decide

theorem all_but_bit_test (f : Feature) :
    ((all_but_bit f).get f.reg).testBit f.bit = false := by
  cases f <;> decide

/-- What was appended to the log is what was issued. -/
theorem issued_append (w : World) (hw : Oracle) (l : List (Nat × Nat)) :
    issued w ⟨hw, w.calls ++ l⟩ = l := by
  simp [issued]

/-- The result of a feature predicate depends on the processor alone, and the
call leaves the processor as it was. -/
theorem pred_frame (f : Feature) (arch : Arch) (w : World) :
    (f.pred arch w).2.hw = w.hw ∧
    ∀ w2 : World, w2.hw = w.hw → (f.pred arch w2).1 = (f.pred arch w).1 := by
  cases arch with
  | x86 =>
    refine ⟨?_, ?_⟩
    · rw [pred_x86, feature_table_pred]
      split <;> rfl
    · intro w2 h
      rw [pred_x86, pred_x86, feature_table_pred, feature_table_pred, h]
      split <;> rfl
  | other =>
    refine ⟨by rw [pred_other], ?_⟩
    intro w2 _
    rw [pred_other, pred_other]

/-- The result of the vendor check depends on the processor alone, and the call
leaves the processor as it was. -/
theorem is_x86_frame (arch : Arch) (w : World) :
    (stress_cpu_is_x86 arch w).2.hw = w.hw ∧
    ∀ w2 : World, w2.hw = w.hw → (stress_cpu_is_x86 arch w2).1 = (stress_cpu_is_x86 arch w).1 := by
  cases arch with
  | x86 =>
    refine ⟨by rw [is_x86_x86], ?_⟩
    intro w2 h
    rw [is_x86_x86, is_x86_x86, h]
  | other => exact ⟨rfl, fun _ _ => rfl⟩

/-! ## Claims -/

/-- C1: on the x86 build `stress_cpu_is_x86` issues the query (leaf 0,
sub-leaf 0) and returns true iff the bytes of EBX, EDX, ECX, low-order byte
first, spell "GenuineIntel", that is iff EBX = 0x756E6547, EDX = 0x49656E69 and
ECX = 0x6C65746E; a vendor string that is "GenuineIntel" with one byte replaced
by a different value gives false; and the result is the same for two
processors whose leaf-0 answers agree on EBX, EDX and ECX, whatever EAX is. -/
theorem C1_is_x86_iff_GenuineIntel (w : World) :
    (stress_cpu_is_x86 .x86 w).2.calls = w.calls ++ [(0, 0)] ∧
    ((stress_cpu_is_x86 .x86 w).1 = true ↔ vendor_bytes (query w.hw 0 0) = GenuineIntel) ∧
    ((stress_cpu_is_x86 .x86 w).1 = true ↔
      (query w.hw 0 0).ebx = 0x756E6547 ∧ (query w.hw 0 0).edx = 0x49656E69 ∧
        (query w.hw 0 0).ecx = 0x6C65746E) ∧
    (∀ i b : Nat, i < 12 → b ≠ GenuineIntel.getD i 0 →
      vendor_bytes (query w.hw 0 0) = GenuineIntel.set i b →
      (stress_cpu_is_x86 .x86 w).1 = false) ∧
    (∀ w2 : World, (query w2.hw 0 0).ebx = (query w.hw 0 0).ebx →
      (query w2.hw 0 0).edx = (query w.hw 0 0).edx →
      (query w2.hw 0 0).ecx = (query w.hw 0 0).ecx →
      (stress_cpu_is_x86 .x86 w2).1 = (stress_cpu_is_x86 .x86 w).1) := by
  refine ⟨by rw [is_x86_x86], by rw [is_x86_x86]; simp, ?_, ?_, ?_⟩
  · rw [is_x86_x86, ← vendor_bytes_iff]
    simp
  · intro i b hi hb hv
    rw [is_x86_x86]
    have hne : GenuineIntel.set i b ≠ GenuineIntel :=
      set_ne_self GenuineIntel i b (by rw [GenuineIntel_eq]; exact hi) hb
    simp [hv, hne]
  · intro w2 hb hd hc
    rw [is_x86_x86, is_x86_x86]
    simp only [vendor_bytes, hb, hd, hc]

/-- C1 at "GenuineIntel" (true) and at "GenuineIntex" (false). -/
theorem C1_is_x86_iff_GenuineIntel_witness :
    (stress_cpu_is_x86 .x86 ⟨intel_hw, []⟩).1 = true ∧
    (stress_cpu_is_x86 .x86 ⟨intex_hw, []⟩).1 = false :=
  ⟨(C1_is_x86_iff_GenuineIntel ⟨intel_hw, []⟩).2.1.mpr (by decide),
   (C1_is_x86_iff_GenuineIntel ⟨intex_hw, []⟩).2.2.2.1 11 0x78 (by decide) (by decide)
     (by decide)⟩

/-- C2: on the x86 build each feature predicate returns true iff
`stress_cpu_is_x86` returns true and the bit of the feature is set in the
register of the feature in the answer to (leaf of the feature, sub-leaf 0):
TSC (1, EDX, 4), MSR (1, EDX, 5), RDRAND (1, ECX, 30), SYSCALL (0x80000001,
EDX, 11), RDSEED (7, EBX, 18), CLFLUSHOPT (7, EBX, 23), CLWB (7, EBX, 24),
CLDEMOTE (7, ECX, 25). -/
theorem C2_feature_iff_vendor_and_bit (w : World) :
    ((stress_cpu_x86_has_tsc .x86 w).1 = true ↔
      (stress_cpu_is_x86 .x86 w).1 = true ∧ (query w.hw 1 0).edx.testBit 4 = true) ∧
    ((stress_cpu_x86_has_msr .x86 w).1 = true ↔
      (stress_cpu_is_x86 .x86 w).1 = true ∧ (query w.hw 1 0).edx.testBit 5 = true) ∧
    ((stress_cpu_x86_has_rdrand .x86 w).1 = true ↔
      (stress_cpu_is_x86 .x86 w).1 = true ∧ (query w.hw 1 0).ecx.testBit 30 = true) ∧
    ((stress_cpu_x86_has_syscall .x86 w).1 = true ↔
      (stress_cpu_is_x86 .x86 w).1 = true ∧
        (query w.hw 0x80000001 0).edx.testBit 11 = true) ∧
    ((stress_cpu_x86_has_rdseed .x86 w).1 = true ↔
      (stress_cpu_is_x86 .x86 w).1 = true ∧ (query w.hw 7 0).ebx.testBit 18 = true) ∧
    ((stress_cpu_x86_has_clflushopt .x86 w).1 = true ↔
      (stress_cpu_is_x86 .x86 w).1 = true ∧ (query w.hw 7 0).ebx.testBit 23 = true) ∧
    ((stress_cpu_x86_has_clwb .x86 w).1 = true ↔
      (stress_cpu_is_x86 .x86 w).1 = true ∧ (query w.hw 7 0).ebx.testBit 24 = true) ∧
    ((stress_cpu_x86_has_cldemote .x86 w).1 = true ↔
      (stress_cpu_is_x86 .x86 w).1 = true ∧ (query w.hw 7 0).ecx.testBit 25 = true) := by
  have h1 := pred_x86 .tsc w
  have h2 := pred_x86 .msr w
  have h3 := pred_x86 .rdrand w
  have h4 := pred_x86 .syscall w
  have h5 := pred_x86 .rdseed w
  have h6 := pred_x86 .clflushopt w
  have h7 := pred_x86 .clwb w
  have h8 := pred_x86 .cldemote w
  simp only [Feature.pred, feature_table_pred, Feature.leaf, Feature.reg, Feature.bit,
    Regs.get] at h1 h2 h3 h4 h5 h6 h7 h8
  rw [h1, h2, h3, h4, h5, h6, h7, h8, is_x86_x86]
  by_cases h : vendor_bytes (query w.hw 0 0) = GenuineIntel <;> simp [h]

/-- C2 on a "GenuineIntel" processor with only TSC in leaf 1 and only CLWB in
leaf 7: TSC and CLWB are reported, MSR and RDSEED are not. -/
theorem C2_feature_iff_vendor_and_bit_witness :
    (stress_cpu_x86_has_tsc .x86 ⟨intel_hw, []⟩).1 = true ∧
    (stress_cpu_x86_has_clwb .x86 ⟨intel_hw, []⟩).1 = true ∧
    ¬ (stress_cpu_x86_has_msr .x86 ⟨intel_hw, []⟩).1 = true ∧
    ¬ (stress_cpu_x86_has_rdseed .x86 ⟨intel_hw, []⟩).1 = true :=
  ⟨(C2_feature_iff_vendor_and_bit ⟨intel_hw, []⟩).1.mpr ⟨by decide, by decide⟩,
   (C2_feature_iff_vendor_and_bit ⟨intel_hw, []⟩).2.2.2.2.2.2.1.mpr ⟨by decide, by decide⟩,
   fun h => absurd ((C2_feature_iff_vendor_and_bit ⟨intel_hw, []⟩).2.1.mp h).2 (by decide),
   fun h => absurd ((C2_feature_iff_vendor_and_bit ⟨intel_hw, []⟩).2.2.2.2.1.mp h).2
     (by decide)⟩

/-- C3: on the x86 build, when the leaf-0 answer is not the "GenuineIntel"
vendor string, each feature predicate returns false whatever the other leaves
answer, and the only query it issues is (leaf 0, sub-leaf 0): none with leaf 1,
7 or 0x80000001. -/
theorem C3_vendor_gate_short_circuit (f : Feature) (w : World)
    (hv : vendor_bytes (query w.hw 0 0) ≠ GenuineIntel) :
    (f.pred .x86 w).1 = false ∧
    (f.pred .x86 w).2.calls = w.calls ++ [(0, 0)] ∧
    issued w (f.pred .x86 w).2 = [(0, 0)] ∧
    (∀ q ∈ issued w (f.pred .x86 w).2, q.1 ≠ 1 ∧ q.1 ≠ 7 ∧ q.1 ≠ 0x80000001) := by
  have hi : issued w (f.pred .x86 w).2 = [(0, 0)] := by
    simp [issued, pred_x86, feature_table_pred, hv]
  refine ⟨by simp [pred_x86, feature_table_pred, hv],
    by simp [pred_x86, feature_table_pred, hv], hi, ?_⟩
  intro q hq
  rw [hi] at hq
  simp only [List.mem_singleton] at hq
  subst hq
  decide

/-- C3 on an "AuthenticAMD" processor whose other leaves have all bits set:
RDRAND is reported absent and only leaf 0 is queried. -/
theorem C3_vendor_gate_short_circuit_witness :
    vendor_bytes (query amd_hw 0 0) = c_str "AuthenticAMD" ∧
    (stress_cpu_x86_has_rdrand .x86 ⟨amd_hw, []⟩).1 = false ∧
    (stress_cpu_x86_has_rdrand .x86 ⟨amd_hw, []⟩).2.calls = [(0, 0)] :=
  ⟨by decide,
   (C3_vendor_gate_short_circuit .rdrand ⟨amd_hw, []⟩ (by decide)).1,
   (C3_vendor_gate_short_circuit .rdrand ⟨amd_hw, []⟩ (by decide)).2.1⟩

/-- C4: on the x86 build with the vendor check passing, a feature predicate
returns true when the answer of its leaf has only its bit set (in its register,
all other bits of the four registers clear) and false when that bit is clear
and every other bit of the four registers is set; with leaf 7 giving
EBX = 1<<24 CLWB is true and CLFLUSHOPT false, with EBX = 1<<23 CLWB is false
and CLFLUSHOPT true. -/
theorem C4_exact_bit (w : World) (hv : vendor_bytes (query w.hw 0 0) = GenuineIntel) :
    (∀ f : Feature, query w.hw f.leaf 0 = only_bit f → (f.pred .x86 w).1 = true) ∧
    (∀ f : Feature, query w.hw f.leaf 0 = all_but_bit f → (f.pred .x86 w).1 = false) ∧
    ((query w.hw 7 0).ebx = 1 <<< 24 →
      (stress_cpu_x86_has_clwb .x86 w).1 = true ∧
      (stress_cpu_x86_has_clflushopt .x86 w).1 = false) ∧
    ((query w.hw 7 0).ebx = 1 <<< 23 →
      (stress_cpu_x86_has_clwb .x86 w).1 = false ∧
      (stress_cpu_x86_has_clflushopt .x86 w).1 = true) := by
  have hclwb := pred_x86 .clwb w
  have hclfl := pred_x86 .clflushopt w
  simp only [Feature.pred, feature_table_pred, Feature.leaf, Feature.reg, Feature.bit,
    Regs.get, hv, if_true] at hclwb hclfl
  refine ⟨?_, ?_, ?_, ?_⟩
  · intro f h
    rw [pred_x86, feature_table_pred, if_pos hv, h]
    exact only_bit_test f
  · intro f h
    rw [pred_x86, feature_table_pred, if_pos hv, h]
    exact all_but_bit_test f
  · intro h
    rw [hclwb, hclfl, h]
    exact ⟨(by decide : (1 <<< 24).testBit 24 = true),
      (by decide : (1 <<< 24).testBit 23 = false)⟩
  · intro h
    rw [hclwb, hclfl, h]
    exact ⟨(by decide : (1 <<< 23).testBit 24 = false),
      (by decide : (1 <<< 23).testBit 23 = true)⟩

/-- C4 on three processors: only CLWB in leaf 7 (CLWB true, CLFLUSHOPT false),
only CLFLUSHOPT (CLWB false, CLFLUSHOPT true), every bit but RDSEED (RDSEED
false). -/
theorem C4_exact_bit_witness :
    (stress_cpu_x86_has_clwb .x86 ⟨intel_hw, []⟩).1 = true ∧
    (stress_cpu_x86_has_clflushopt .x86 ⟨intel_hw, []⟩).1 = false ∧
    (stress_cpu_x86_has_clwb .x86 ⟨clflushopt_hw, []⟩).1 = false ∧
    (stress_cpu_x86_has_clflushopt .x86 ⟨clflushopt_hw, []⟩).1 = true ∧
    (stress_cpu_x86_has_rdseed .x86 ⟨no_rdseed_hw, []⟩).1 = false :=
  ⟨(C4_exact_bit ⟨intel_hw, []⟩ (by decide)).1 .clwb (by decide),
   ((C4_exact_bit ⟨intel_hw, []⟩ (by decide)).2.2.1 (by decide)).2,
   ((C4_exact_bit ⟨clflushopt_hw, []⟩ (by decide)).2.2.2 (by decide)).1,
   ((C4_exact_bit ⟨clflushopt_hw, []⟩ (by decide)).2.2.2 (by decide)).2,
   (C4_exact_bit ⟨no_rdseed_hw, []⟩ (by decide)).2.1 .rdseed (by decide)⟩

/-- C5: on a non-x86 build `stress_cpu_is_x86` and the eight feature predicates
return false and leave the log of calls of `stress_x86_cpuid` as it was: the
call issues no raw query. -/
theorem C5_non_x86_false_without_query (w : World) :
    stress_cpu_is_x86 .other w = (false, w) ∧
    stress_cpu_x86_has_clflushopt .other w = (false, w) ∧
    stress_cpu_x86_has_clwb .other w = (false, w) ∧
    stress_cpu_x86_has_cldemote .other w = (false, w) ∧
    stress_cpu_x86_has_rdseed .other w = (false, w) ∧
    stress_cpu_x86_has_syscall .other w = (false, w) ∧
    stress_cpu_x86_has_rdrand .other w = (false, w) ∧
    stress_cpu_x86_has_tsc .other w = (false, w) ∧
    stress_cpu_x86_has_msr .other w = (false, w) ∧
    issued w (stress_cpu_is_x86 .other w).2 = [] ∧
    ∀ f : Feature, issued w (f.pred .other w).2 = [] := by
  refine ⟨rfl, rfl, rfl, rfl, rfl, rfl, rfl, rfl, rfl, ?_, ?_⟩
  · show issued w w = []
    simp [issued]
  · intro f
    rw [pred_other]
    simp [issued]

/-- C6: on a non-x86 build `stress_x86_cpuid` leaves all four registers equal
to 0 for every incoming EAX, EBX, ECX, EDX; the function is total. -/
theorem C6_non_x86_cpuid_zero (eax ebx ecx edx : Nat) (w : World) :
    (stress_x86_cpuid .other ⟨eax, ebx, ecx, edx⟩ w).1 = ⟨0, 0, 0, 0⟩ := rfl

/-- C7: for each of the nine public predicates, in either build, a second call
right after the first against the same processor returns the same boolean; the
call leaves the processor as it was, and the result is the same in any two
worlds with the same processor (whatever the earlier calls were). -/
theorem C7_idempotent (arch : Arch) (w : World) :
    ((stress_cpu_is_x86 arch (stress_cpu_is_x86 arch w).2).1 = (stress_cpu_is_x86 arch w).1 ∧
      (stress_cpu_is_x86 arch w).2.hw = w.hw ∧
      ∀ w2 : World, w2.hw = w.hw →
        (stress_cpu_is_x86 arch w2).1 = (stress_cpu_is_x86 arch w).1) ∧
    ∀ f : Feature,
      (f.pred arch (f.pred arch w).2).1 = (f.pred arch w).1 ∧
      (f.pred arch w).2.hw = w.hw ∧
      ∀ w2 : World, w2.hw = w.hw → (f.pred arch w2).1 = (f.pred arch w).1 := by
  refine ⟨⟨?_, (is_x86_frame arch w).1, (is_x86_frame arch w).2⟩, ?_⟩
  · exact (is_x86_frame arch w).2 _ (is_x86_frame arch w).1
  · intro f
    exact ⟨(pred_frame f arch w).2 _ (pred_frame f arch w).1, (pred_frame f arch w).1,
      (pred_frame f arch w).2⟩

/-- C7 on a "GenuineIntel" processor with TSC: the call after three earlier
queries returns what the call after none returns. -/
theorem C7_idempotent_witness :
    (stress_cpu_x86_has_tsc .x86 ⟨intel_hw, [(0, 0), (1, 0), (0, 0)]⟩).1 =
      (stress_cpu_x86_has_tsc .x86 ⟨intel_hw, []⟩).1 ∧
    (stress_cpu_x86_has_tsc .x86 (stress_cpu_x86_has_tsc .x86 ⟨intel_hw, []⟩).2).1 = true :=
  ⟨((C7_idempotent .x86 ⟨intel_hw, []⟩).2 .tsc).2.2 ⟨intel_hw, [(0, 0), (1, 0), (0, 0)]⟩ rfl,
   ((C7_idempotent .x86 ⟨intel_hw, []⟩).2 .tsc).1.trans (by decide)⟩

/-- C8: on the x86 build with a "GenuineIntel" leaf-0 answer, a call of a
feature predicate issues exactly the two queries (leaf 0, sub-leaf 0) and
(leaf of the feature, sub-leaf 0), in this order, with leaf 1 for TSC, MSR and
RDRAND, 0x80000001 for SYSCALL and 7 for RDSEED, CLFLUSHOPT, CLWB and CLDEMOTE;
a second call issues the same two queries again; and no call of one of the
nine public predicates, in either build and whatever the vendor, issues a
query with a leaf outside 0, 1, 7, 0x80000001 or a sub-leaf other than 0. -/
theorem C8_query_sequence (w : World) :
    (vendor_bytes (query w.hw 0 0) = GenuineIntel → ∀ f : Feature,
      (f.pred .x86 w).2.calls = w.calls ++ [(0, 0), (f.leaf, 0)] ∧
      issued w (f.pred .x86 w).2 = [(0, 0), (f.leaf, 0)] ∧
      issued (f.pred .x86 w).2 (f.pred .x86 (f.pred .x86 w).2).2 = [(0, 0), (f.leaf, 0)]) ∧
    Feature.all.map Feature.leaf = [1, 1, 1, 0x80000001, 7, 7, 7, 7] ∧
    (∀ arch : Arch,
      (∀ q ∈ issued w (stress_cpu_is_x86 arch w).2,
        (q.1 = 0 ∨ q.1 = 1 ∨ q.1 = 7 ∨ q.1 = 0x80000001) ∧ q.2 = 0) ∧
      ∀ f : Feature, ∀ q ∈ issued w (f.pred arch w).2,
        (q.1 = 0 ∨ q.1 = 1 ∨ q.1 = 7 ∨ q.1 = 0x80000001) ∧ q.2 = 0) := by
  refine ⟨?_, rfl, ?_⟩
  · intro hv f
    have h1 : f.pred .x86 w = (((query w.hw f.leaf 0).get f.reg).testBit f.bit,
        ⟨w.hw, w.calls ++ [(0, 0), (f.leaf, 0)]⟩) := by
      rw [pred_x86, feature_table_pred, if_pos hv]
    have h2 : ∀ c : List (Nat × Nat), f.pred .x86 ⟨w.hw, c⟩ =
        (((query w.hw f.leaf 0).get f.reg).testBit f.bit,
          ⟨w.hw, c ++ [(0, 0), (f.leaf, 0)]⟩) := by
      intro c
      rw [pred_x86, feature_table_pred, if_pos hv]
    refine ⟨by rw [h1], by rw [h1]; exact issued_append w w.hw _, ?_⟩
    rw [h1, h2]
    exact issued_append ⟨w.hw, w.calls ++ [(0, 0), (f.leaf, 0)]⟩ w.hw _
  · intro arch
    cases arch with
    | x86 =>
      refine ⟨?_, ?_⟩
      · intro q hq
        rw [is_x86_x86, issued_append] at hq
        simp only [List.mem_singleton] at hq
        subst hq
        exact ⟨Or.inl rfl, rfl⟩
      · intro f q hq
        rw [pred_x86, feature_table_pred] at hq
        split at hq
        · rw [issued_append] at hq
          simp only [List.mem_cons, List.mem_singleton, List.not_mem_nil, or_false] at hq
          rcases hq with rfl | rfl
          · exact ⟨Or.inl rfl, rfl⟩
          · cases f <;> simp [Feature.leaf]
        · rw [issued_append] at hq
          simp only [List.mem_singleton] at hq
          subst hq
          exact ⟨Or.inl rfl, rfl⟩
    | other =>
      refine ⟨?_, ?_⟩
      · intro q hq
        have : issued w (stress_cpu_is_x86 .other w).2 = [] := by
          show issued w w = []
          simp [issued]
        rw [this] at hq
        cases hq
      · intro f q hq
        have : issued w (f.pred .other w).2 = [] := by
          rw [pred_other]
          simp [issued]
        rw [this] at hq
        cases hq

/-- C8 on a "GenuineIntel" processor: SYSCALL queries leaf 0 then leaf
0x80000001, and a second TSC call appends (0,0), (1,0) once more. -/
theorem C8_query_sequence_witness :
    (stress_cpu_x86_has_syscall .x86 ⟨intel_hw, []⟩).2.calls = [(0, 0), (0x80000001, 0)] ∧
    (stress_cpu_x86_has_tsc .x86 (stress_cpu_x86_has_tsc .x86 ⟨intel_hw, []⟩).2).2.calls =
      [(0, 0), (1, 0), (0, 0), (1, 0)] ∧
    issued (stress_cpu_x86_has_tsc .x86 ⟨intel_hw, []⟩).2
      (stress_cpu_x86_has_tsc .x86 (stress_cpu_x86_has_tsc .x86 ⟨intel_hw, []⟩).2).2 =
      [(0, 0), (1, 0)] :=
  ⟨((C8_query_sequence ⟨intel_hw, []⟩).1 (by decide) .syscall).1,
   by decide,
   ((C8_query_sequence ⟨intel_hw, []⟩).1 (by decide) .tsc).2.2⟩

/-- C9: over a raw query that always returns EAX = EBX = ECX = EDX = 0 the x86
build of `stress_x86_cpuid` does what the non-x86 build does, and the x86
bodies of `stress_cpu_is_x86` and of the eight feature predicates return
false, which is what the non-x86 build of the same function returns. -/
theorem C9_x86_over_zero_agrees_with_stub (w : World)
    (hz : ∀ leaf sub : Nat, w.hw leaf sub = ⟨0, 0, 0, 0⟩) :
    (∀ r : Regs, stress_x86_cpuid .x86 r w = stress_x86_cpuid .other r w) ∧
    ((stress_cpu_is_x86 .x86 w).1 = false ∧ (stress_cpu_is_x86 .other w).1 = false) ∧
    ((stress_cpu_x86_has_clflushopt .x86 w).1 = false ∧
      (stress_cpu_x86_has_clflushopt .other w).1 = false) ∧
    ((stress_cpu_x86_has_clwb .x86 w).1 = false ∧
      (stress_cpu_x86_has_clwb .other w).1 = false) ∧
    ((stress_cpu_x86_has_cldemote .x86 w).1 = false ∧
      (stress_cpu_x86_has_cldemote .other w).1 = false) ∧
    ((stress_cpu_x86_has_rdseed .x86 w).1 = false ∧
      (stress_cpu_x86_has_rdseed .other w).1 = false) ∧
    ((stress_cpu_x86_has_syscall .x86 w).1 = false ∧
      (stress_cpu_x86_has_syscall .other w).1 = false) ∧
    ((stress_cpu_x86_has_rdrand .x86 w).1 = false ∧
      (stress_cpu_x86_has_rdrand .other w).1 = false) ∧
    ((stress_cpu_x86_has_tsc .x86 w).1 = false ∧
      (stress_cpu_x86_has_tsc .other w).1 = false) ∧
    ((stress_cpu_x86_has_msr .x86 w).1 = false ∧
      (stress_cpu_x86_has_msr .other w).1 = false) := by
  have hq : query w.hw 0 0 = ⟨0, 0, 0, 0⟩ := by
    simp only [query, hz]
    rfl
  have hv : vendor_bytes (query w.hw 0 0) ≠ GenuineIntel := by
    rw [hq]
    decide
  have hp : ∀ f : Feature, (f.pred .x86 w).1 = false := by
    intro f
    rw [pred_x86, feature_table_pred, if_neg hv]
  refine ⟨?_, ⟨?_, rfl⟩, ⟨hp .clflushopt, rfl⟩, ⟨hp .clwb, rfl⟩, ⟨hp .cldemote, rfl⟩,
    ⟨hp .rdseed, rfl⟩, ⟨hp .syscall, rfl⟩, ⟨hp .rdrand, rfl⟩, ⟨hp .tsc, rfl⟩, ⟨hp .msr, rfl⟩⟩
  · intro r
    simp only [stress_x86_cpuid, hz]
    rfl
  · rw [is_x86_x86]
    simp [hv]

/-- C9 on the all-zero processor: the x86 body of the RDRAND predicate returns
false. -/
theorem C9_x86_over_zero_agrees_with_stub_witness :
    (stress_cpu_x86_has_rdrand .x86 ⟨zero_hw, []⟩).1 = false ∧
    (stress_cpu_x86_has_rdrand .other ⟨zero_hw, []⟩).1 = false :=
  (C9_x86_over_zero_agrees_with_stub ⟨zero_hw, []⟩ (fun _ _ => rfl)).2.2.2.2.2.2.2.1

/-- C10: on the x86 build `stress_x86_cpuid` reads only the incoming EAX and
ECX: for every EAX and ECX and every two choices of incoming EBX and EDX the
four resulting registers are the same, namely the answer of the processor to
(EAX, ECX), which is stored unmodified when it fits the 32-bit registers. -/
theorem C10_cpuid_reads_eax_ecx_only (w : World) (eax ebx ecx edx ebx2 edx2 : Nat) :
    (stress_x86_cpuid .x86 ⟨eax, ebx, ecx, edx⟩ w).1 =
      (stress_x86_cpuid .x86 ⟨eax, ebx2, ecx, edx2⟩ w).1 ∧
    (stress_x86_cpuid .x86 ⟨eax, ebx, ecx, edx⟩ w).1 = query w.hw eax ecx ∧
    ((w.hw eax ecx).eax < 2 ^ 32 → (w.hw eax ecx).ebx < 2 ^ 32 →
      (w.hw eax ecx).ecx < 2 ^ 32 → (w.hw eax ecx).edx < 2 ^ 32 →
      (stress_x86_cpuid .x86 ⟨eax, ebx, ecx, edx⟩ w).1 = w.hw eax ecx) := by
  refine ⟨rfl, rfl, ?_⟩
  intro ha hb hc hd
  simp only [stress_x86_cpuid, u32, Nat.mod_eq_of_lt ha, Nat.mod_eq_of_lt hb,
    Nat.mod_eq_of_lt hc, Nat.mod_eq_of_lt hd]

/-- C10 on a "GenuineIntel" processor: leaf 7 with garbage in the incoming EBX
and EDX gives the leaf-7 answer of the processor. -/
theorem C10_cpuid_reads_eax_ecx_only_witness :
    (stress_x86_cpuid .x86 ⟨7, 0xDEAD, 0, 0xBEEF⟩ ⟨intel_hw, []⟩).1 = ⟨0, 1 <<< 24, 0, 0⟩ :=
  ((C10_cpuid_reads_eax_ecx_only ⟨intel_hw, []⟩ 7 0xDEAD 0 0xBEEF 0 0).2.2
    (by decide) (by decide) (by decide) (by decide)).trans (by decide)

/-- C11: on the x86 build no feature predicate consults the highest supported
leaf: two processors whose leaf-0 answers agree on EBX, ECX and EDX and whose
answers to leaves 1, 7 and 0x80000001 (sub-leaf 0) agree give the same result
for each predicate, whatever the two leaf-0 EAX values are; with vendor
"GenuineIntel", leaf-0 EAX = 1 and bit 18 of the leaf-7 EBX set,
`stress_cpu_x86_has_rdseed` returns true; and no query issued by
`stress_cpu_x86_has_syscall` has leaf 0x80000000. -/
theorem C11_max_leaf_not_consulted (w : World) :
    (∀ w2 : World,
      (query w2.hw 0 0).ebx = (query w.hw 0 0).ebx →
      (query w2.hw 0 0).ecx = (query w.hw 0 0).ecx →
      (query w2.hw 0 0).edx = (query w.hw 0 0).edx →
      query w2.hw 1 0 = query w.hw 1 0 →
      query w2.hw 7 0 = query w.hw 7 0 →
      query w2.hw 0x80000001 0 = query w.hw 0x80000001 0 →
      ∀ f : Feature, (f.pred .x86 w2).1 = (f.pred .x86 w).1) ∧
    (vendor_bytes (query w.hw 0 0) = GenuineIntel → (query w.hw 0 0).eax = 1 →
      (query w.hw 7 0).ebx.testBit 18 = true →
      (stress_cpu_x86_has_rdseed .x86 w).1 = true) ∧
    (∀ q ∈ issued w (stress_cpu_x86_has_syscall .x86 w).2, q.1 ≠ 0x80000000) := by
  refine ⟨?_, ?_, ?_⟩
  · intro w2 hb hc hd h1 h7 h8 f
    have hv : vendor_bytes (query w2.hw 0 0) = vendor_bytes (query w.hw 0 0) := by
      simp only [vendor_bytes, hb, hc, hd]
    rw [pred_x86, pred_x86, feature_table_pred, feature_table_pred, hv]
    by_cases hg : vendor_bytes (query w.hw 0 0) = GenuineIntel
    · rw [if_pos hg, if_pos hg]
      cases f <;> simp only [Feature.leaf, h1, h7, h8]
    · rw [if_neg hg, if_neg hg]
  · intro hv _ hbit
    have h := pred_x86 .rdseed w
    simp only [Feature.pred, feature_table_pred, Feature.leaf, Feature.reg, Feature.bit,
      Regs.get, if_pos hv] at h
    rw [h]
    exact hbit
  · intro q hq
    have h := pred_x86 .syscall w
    simp only [Feature.pred, feature_table_pred, Feature.leaf] at h
    rw [h] at hq
    split at hq
    · rw [issued_append] at hq
      simp only [List.mem_cons, List.mem_singleton, List.not_mem_nil, or_false] at hq
      rcases hq with rfl | rfl <;> decide
    · rw [issued_append] at hq
      simp only [List.mem_singleton] at hq
      subst hq
      decide

/-- C11 on two "GenuineIntel" processors that differ only in the highest basic
leaf (1 and 7): RDSEED is reported on both, and with highest leaf 1 the result
is true. -/
theorem C11_max_leaf_not_consulted_witness :
    (query max_leaf7_hw 0 0).eax ≠ (query max_leaf1_hw 0 0).eax ∧
    (stress_cpu_x86_has_rdseed .x86 ⟨max_leaf7_hw, []⟩).1 =
      (stress_cpu_x86_has_rdseed .x86 ⟨max_leaf1_hw, []⟩).1 ∧
    (stress_cpu_x86_has_rdseed .x86 ⟨max_leaf1_hw, []⟩).1 = true :=
  ⟨by decide,
   (C11_max_leaf_not_consulted ⟨max_leaf1_hw, []⟩).1 ⟨max_leaf7_hw, []⟩
     (by decide) (by decide) (by decide) (by decide) (by decide) (by decide) .rdseed,
   (C11_max_leaf_not_consulted ⟨max_leaf1_hw, []⟩).2.1 (by decide) (by decide) (by decide)⟩

end StressCpu
